import Mathlib

/-!
Verification of the Android performance-monitoring collector and baseline
manager.  The Python sources are shallowly embedded in Lean:

* `collector/android_collector.py` — the diagnostic-text parsers
  (`parse_total_cpu_percent`, `parse_meminfo`, `parse_battery`,
  `parse_app_cpu_from_cpuinfo`, `parse_app_mem_from_meminfo`) and the CSV
  session log (`ensure_csv_writer`).
* `scripts/baseline_manager.py` — the baseline store (`create_baseline`'s
  derived battery metric, `show_baseline`, `delete_baseline`) and the
  regression comparator (`compare_with_baseline`'s per-statistic drift
  classification and session-level verdict).

Python strings are modelled as `List Char` with structurally recursive
re-implementations of the string methods the sources use, so that concrete
runs of the parsers reduce inside the kernel.  Floats are modelled as `ℚ`;
Python's `float(...)`/`int(...)` literal conversions are modelled on plain
decimal notation (optional sign, digits, optional fraction part), which is
the shape of every token the diagnostic texts feed them.  Fallible Python
primitives (list indexing, numeric conversion) are additionally given an
exception-instrumented semantics in the `Except` monad, used to settle
whether the parsers can raise.
-/

namespace PerfMon

/-! ### Python string primitives over `List Char` -/

/-- Splits a list at every element satisfying `p`; the separators are dropped
and empty chunks are kept (like Python `str.split(sep)` for one separator). -/
def splitOnPred (p : Char → Bool) : List Char → List (List Char)
  | [] => [[]]
  | x :: xs =>
    match splitOnPred p xs with
    | [] => [[]]
    | g :: gs => if p x then [] :: g :: gs else (x :: g) :: gs

/-- Python `str.splitlines()` restricted to `'\n'`-terminated lines: splits on
newlines and drops the empty chunk a trailing newline would produce. -/
def pySplitlines (l : List Char) : List (List Char) :=
  if l.isEmpty then []
  else
    match (splitOnPred (fun c => c = '\n') l).reverse with
    | [] => []
    | last :: front => if last.isEmpty then front.reverse else (last :: front).reverse

/-- Python `str.split()` with no argument: split on whitespace runs, no empty
tokens. -/
def splitWsCL (l : List Char) : List (List Char) :=
  (splitOnPred Char.isWhitespace l).filter (fun t => !t.isEmpty)

/-- Python `str.strip()`. -/
def stripCL (l : List Char) : List Char :=
  ((l.dropWhile Char.isWhitespace).reverse.dropWhile Char.isWhitespace).reverse

/-- Python `str.lower()` (ASCII). -/
def lowerCL (l : List Char) : List Char := l.map Char.toLower

/-- Boolean list-prefix test, Python `str.startswith`. -/
def isPrefixOfCL : List Char → List Char → Bool
  | [], _ => true
  | _ :: _, [] => false
  | a :: as_, b :: bs => a = b && isPrefixOfCL as_ bs

/-- Python substring membership `sub in s`. -/
def containsSub (sub : List Char) : List Char → Bool
  | [] => isPrefixOfCL sub []
  | c :: rest => isPrefixOfCL sub (c :: rest) || containsSub sub rest

/-- Python `str.endswith`. -/
def endsWithCL (suffix_ : List Char) (l : List Char) : Bool :=
  isPrefixOfCL suffix_.reverse l.reverse

/-- Splits at the first occurrence of `c`, if any. -/
def splitOnceAux (c : Char) : List Char → Option (List Char × List Char)
  | [] => none
  | x :: xs =>
    if x = c then some ([], xs)
    else (splitOnceAux c xs).map (fun p => (x :: p.1, p.2))

/-- Python `str.split(":", 1)`: one or two chunks. -/
def splitColon1 (l : List Char) : List (List Char) :=
  match splitOnceAux ':' l with
  | none => [l]
  | some (a, b) => [a, b]

/-- The ASCII-decimal restriction of Python `str.isdigit()`: non-empty and
all ASCII decimal digits.  On such strings `int()` is guaranteed to succeed,
so the `Option`-valued parsers below use this as their guard model; the full
`isdigit` class, which also accepts non-decimal digit characters on which
`int()` raises, is `pyIsDigitStr`. -/
def isDigitStr (l : List Char) : Bool :=
  !l.isEmpty && l.all Char.isDigit

/-- Python `str.isdigit` on one character: true for Unicode Numeric_Type
Decimal or Digit.  Modelled for the ASCII decimal digits plus the superscript
digits `'¹'`, `'²'`, `'³'` (Numeric_Type=Digit — accepted by `isdigit` yet
rejected by `int()`); other Unicode digit classes are outside the model. -/
def pyDigitChar (c : Char) : Bool :=
  c.isDigit || c = '¹' || c = '²' || c = '³'

/-- Python `str.isdigit()` under the `pyDigitChar` character model: non-empty
and all digit characters.  Strictly wider than `isDigitStr`: it also accepts
strings such as `"²"` on which `int()` raises `ValueError`. -/
def pyIsDigitStr (l : List Char) : Bool :=
  !l.isEmpty && l.all pyDigitChar

/-- Value of a decimal digit string. -/
def digitsToNat (l : List Char) : ℕ :=
  l.foldl (fun a c => a * 10 + (c.toNat - 48)) 0

/-- Python `str.replace(".", "", 1)`: drop the first `'.'`. -/
def removeFirstDot : List Char → List Char
  | [] => []
  | x :: xs => if x = '.' then xs else x :: removeFirstDot xs

/-- Python `int(s)` on an unsigned digit string, as an `Option`. -/
def digitsOptZ (l : List Char) : Option ℤ :=
  if isDigitStr l then some (digitsToNat l : ℤ) else none

/-- Python `int(s)` on plain integer notation (optional sign then digits);
`none` models `ValueError`. -/
def pyInt? : List Char → Option ℤ
  | [] => none
  | c :: rest =>
    if c = '-' then (digitsOptZ rest).map (fun z => -z)
    else if c = '+' then digitsOptZ rest
    else digitsOptZ (c :: rest)

/-- Python `float(s)` on unsigned decimal notation `D+ | D+. | D+.D+ | .D+`;
`none` models `ValueError`. -/
def pyFloatNoSign (l : List Char) : Option ℚ :=
  match l.span Char.isDigit with
  | (ds, []) => if ds.isEmpty then none else some (digitsToNat ds : ℚ)
  | (ds, '.' :: fs) =>
    if (ds.isEmpty && fs.isEmpty) || !fs.all Char.isDigit then none
    else some ((digitsToNat ds : ℚ) + (digitsToNat fs : ℚ) / (10 ^ fs.length : ℚ))
  | _ => none

/-- Python `float(s)` on plain decimal notation with an optional sign;
`none` models `ValueError`. -/
def pyFloat? : List Char → Option ℚ
  | '-' :: rest => (pyFloatNoSign rest).map (fun q => -q)
  | '+' :: rest => pyFloatNoSign rest
  | l => pyFloatNoSign l

/-! ### Regression comparator (`scripts/baseline_manager.py`,
`compare_with_baseline`) -/

/-- Per-statistic drift categories printed by `compare_with_baseline`. -/
inductive Category where
  | stable
  | regression
  | minor_regression
  | improvement
  | minor_improvement
deriving DecidableEq

/-- `diff_pct = (diff / b_val * 100) if b_val > 0 else 0` where
`diff = c_val - b_val`. -/
def percent_diff (b c : ℚ) : ℚ :=
  if 0 < b then (c - b) / b * 100 else 0

/-- The `if/elif` category chain of `compare_with_baseline`, applied to one
baseline value and one current value. -/
def classify_drift (b c : ℚ) : Category :=
  if |percent_diff b c| < 5 then .stable
  else if 15 < percent_diff b c then .regression
  else if 5 < percent_diff b c then .minor_regression
  else if percent_diff b c < -10 then .improvement
  else .minor_improvement

/-- Session-level percent drift: `(current - base) / base * 100`, with no
guard on the baseline value (the summary block of `compare_with_baseline`
divides directly). -/
def drift_pct (b c : ℚ) : ℚ := (c - b) / b * 100

/-- Session-level verdict for one metric in the summary block. -/
inductive Verdict where
  | regression
  | improvement
  | steady
deriving DecidableEq

/-- The summary block of `compare_with_baseline` for one metric: append to
`issues` when `mean_diff > 15 or p90_diff > 20`, else to `improvements` when
`mean_diff < -10`, else neither. -/
def session_verdict (b_mean b_p90 c_mean c_p90 : ℚ) : Verdict :=
  if 15 < drift_pct b_mean c_mean ∨ 20 < drift_pct b_p90 c_p90 then .regression
  else if drift_pct b_mean c_mean < -10 then .improvement
  else .steady

/-! ### Diagnostic text parsers (`collector/android_collector.py`) -/

/-- Token test shared by both strategies of `parse_total_cpu_percent`:
`tok.endswith("%") and tok[:-1].replace(".", "", 1).isdigit()`, then
`float(tok[:-1])` (the surrounding `try/except` turns a conversion failure
into skipping the token). -/
def percent_token (tok : List Char) : Option ℚ :=
  if endsWithCL ['%'] tok && isDigitStr (removeFirstDot tok.dropLast) then
    pyFloat? tok.dropLast
  else none

/-- Replaces `'/'` and `','` by spaces, as
`line.replace("/", " ").replace(",", " ")`. -/
def slashCommaToSpace (l : List Char) : List Char :=
  l.map (fun c => if c = '/' || c = ',' then ' ' else c)

/-- First strategy of `parse_total_cpu_percent` on one line: a line with
`"TOTAL" in line or line.strip().startswith("Total")` yields its first
percentage token. -/
def totalCpuLine1 (line : List Char) : Option ℚ :=
  if containsSub "TOTAL".toList line || isPrefixOfCL "Total".toList (stripCL line) then
    (splitWsCL (slashCommaToSpace line)).findSome? percent_token
  else none

/-- Second strategy of `parse_total_cpu_percent` on one line: a `top` summary
line with `"CPU usage from" in line and "%" in line` yields the sum of its
percentage tokens, provided there is at least one. -/
def totalCpuLine2 (line : List Char) : Option ℚ :=
  if containsSub "CPU usage from".toList line && containsSub ['%'] line then
    match (splitWsCL line).filterMap percent_token with
    | [] => none
    | n :: ns => some ((n :: ns).foldl (· + ·) 0)
  else none

/-- `parse_total_cpu_percent`: the first strategy over all lines, then the
second strategy over all lines, else `None`. -/
def parse_total_cpu_percent (text : String) : Option ℚ :=
  match (pySplitlines text.toList).findSome? totalCpuLine1 with
  | some v => some v
  | none => (pySplitlines text.toList).findSome? totalCpuLine2

/-- The total-CPU part of `collect_once`: parse the `dumpsys cpuinfo` text and
fall back to the `top -n 1 -b` text when that yields `None`. -/
def collect_total_cpu (cpuinfo top_out : String) : Option ℚ :=
  match parse_total_cpu_percent cpuinfo with
  | some v => some v
  | none => parse_total_cpu_percent top_out

/-- One line of `parse_meminfo`: update `(mem_total, mem_available)` when the
line starts with `"MemTotal:"` / `"MemAvailable:"` and its second token is a
digit string. -/
def meminfoStep (st : Option ℤ × Option ℤ) (line : List Char) : Option ℤ × Option ℤ :=
  if isPrefixOfCL "MemTotal:".toList line then
    match splitWsCL line with
    | _ :: p1 :: _ => if isDigitStr p1 then (some (digitsToNat p1 : ℤ), st.2) else st
    | _ => st
  else if isPrefixOfCL "MemAvailable:".toList line then
    match splitWsCL line with
    | _ :: p1 :: _ => if isDigitStr p1 then (st.1, some (digitsToNat p1 : ℤ)) else st
    | _ => st
  else st

/-- `parse_meminfo`: returns `(mem_total, mem_available, mem_used_percent)`;
the percentage needs `mem_total` truthy (non-`None`, non-zero) and positive
and `mem_available` non-`None`. -/
def parse_meminfo (text : String) : Option ℤ × Option ℤ × Option ℚ :=
  match (pySplitlines text.toList).foldl meminfoStep (none, none) with
  | (mt, ma) =>
    let mup : Option ℚ :=
      match mt, ma with
      | some t, some a =>
        if t ≠ 0 ∧ 0 < t then some ((1 - (a : ℚ) / (t : ℚ)) * 100) else none
      | _, _ => none
    (mt, ma, mup)

/-- One line of `parse_battery`: on a stripped line, `"level:"` (lower-cased
prefix) with a digit value sets the level; `"temperature:"` with an integer
value sets the temperature in tenths of a degree (conversion failures are
swallowed by the `try/except`). -/
def batteryStep (st : Option ℤ × Option ℚ) (line0 : List Char) : Option ℤ × Option ℚ :=
  if isPrefixOfCL "level:".toList (lowerCL (stripCL line0)) then
    match splitColon1 (stripCL line0) with
    | [_, v] => if isDigitStr (stripCL v) then (some (digitsToNat (stripCL v) : ℤ), st.2) else st
    | _ => st
  else if isPrefixOfCL "temperature:".toList (lowerCL (stripCL line0)) then
    match splitColon1 (stripCL line0) with
    | [_, v] =>
      match pyInt? (stripCL v) with
      | some tenths => (st.1, some ((tenths : ℚ) / 10))
      | none => st
    | _ => st
  else st

/-- `parse_battery`: returns `(level, temp_c)` after scanning every line. -/
def parse_battery (text : String) : Option ℤ × Option ℚ :=
  (pySplitlines text.toList).foldl batteryStep (none, none)

/-- One line of `parse_app_cpu_from_cpuinfo`: a line containing the package
name and a `'%'` yields `float(parts[0][:-1])` when its first token ends with
`'%'` (a `ValueError` just moves on). -/
def appCpuLine (package : List Char) (line : List Char) : Option ℚ :=
  if containsSub package line && containsSub ['%'] line then
    match splitWsCL (stripCL line) with
    | p0 :: _ => if endsWithCL ['%'] p0 then pyFloat? p0.dropLast else none
    | [] => none
  else none

/-- `parse_app_cpu_from_cpuinfo`: `None` for an empty package name, else the
first line match. -/
def parse_app_cpu_from_cpuinfo (text package_name : String) : Option ℚ :=
  if package_name = "" then none
  else (pySplitlines text.toList).findSome? (appCpuLine package_name.toList)

/-- One line of `parse_app_mem_from_meminfo`: a line whose stripped form
starts with `"TOTAL"` yields its first digit-string token as kilobytes. -/
def appMemLine (line : List Char) : Option ℤ :=
  if isPrefixOfCL "TOTAL".toList (stripCL line) then
    (splitWsCL line).findSome? (fun part =>
      if isDigitStr part then some (digitsToNat part : ℤ) else none)
  else none

/-- `parse_app_mem_from_meminfo`: the first line match. -/
def parse_app_mem_from_meminfo (text : String) : Option ℤ :=
  (pySplitlines text.toList).findSome? appMemLine

/-! ### Exception-instrumented semantics

The parsers are re-expressed in the `Except` monad, with every fallible
Python primitive they use — list indexing and `int`/`float` conversion —
made explicit.  A `try/except` in the source becomes a `match` that recovers
from the error; an unguarded primitive propagates it.  The `isdigit` guards
standing in front of the *unguarded* `int()` calls are modelled with the
faithful digit class `pyIsDigitStr`, so that the non-decimal digit
characters Python's `isdigit` accepts but `int()` rejects reach the
conversion, exactly as in the source. -/

/-- Python exceptions raised by the primitives the parsers use. -/
inductive PyErr where
  | valueError
  | indexError
deriving DecidableEq

/-- Python list indexing `l[i]`, raising `IndexError` out of range. -/
def pyListGet (l : List (List Char)) (i : ℕ) : Except PyErr (List Char) :=
  match l.get? i with
  | some a => .ok a
  | none => .error .indexError

/-- Python `int(s)`, raising `ValueError` on malformed input. -/
def pyIntExc (s : List Char) : Except PyErr ℤ :=
  match pyInt? s with
  | some n => .ok n
  | none => .error .valueError

/-- Python `float(s)`, raising `ValueError` on malformed input. -/
def pyFloatExc (s : List Char) : Except PyErr ℚ :=
  match pyFloat? s with
  | some q => .ok q
  | none => .error .valueError

/-- `findSome?` in the `Except` monad: first `some` wins, an error aborts. -/
def findSomeE {α β : Type} (f : α → Except PyErr (Option β)) : List α → Except PyErr (Option β)
  | [] => .ok none
  | a :: l =>
    match f a with
    | .error e => .error e
    | .ok (some b) => .ok (some b)
    | .ok none => findSomeE f l

/-- `foldl` in the `Except` monad: an error aborts the scan. -/
def foldlE {σ α : Type} (f : σ → α → Except PyErr σ) : σ → List α → Except PyErr σ
  | s, [] => .ok s
  | s, a :: l =>
    match f s a with
    | .error e => .error e
    | .ok s2 => foldlE f s2 l

/-- `filterMap` in the `Except` monad: an error aborts the scan. -/
def filterMapE {α β : Type} (f : α → Except PyErr (Option β)) : List α → Except PyErr (List β)
  | [] => .ok []
  | a :: l =>
    match f a with
    | .error e => .error e
    | .ok none => filterMapE f l
    | .ok (some b) =>
      match filterMapE f l with
      | .error e => .error e
      | .ok bs => .ok (b :: bs)

/-- Instrumented `percent_token`: the `float` call sits in a
`try/except Exception` that swallows any error. -/
def percentTokenE (tok : List Char) : Except PyErr (Option ℚ) :=
  if endsWithCL ['%'] tok && isDigitStr (removeFirstDot tok.dropLast) then
    match pyFloatExc tok.dropLast with
    | .ok v => .ok (some v)
    | .error _ => .ok none
  else .ok none

/-- Instrumented first strategy line of `parse_total_cpu_percent`. -/
def totalCpuLine1E (line : List Char) : Except PyErr (Option ℚ) :=
  if containsSub "TOTAL".toList line || isPrefixOfCL "Total".toList (stripCL line) then
    findSomeE percentTokenE (splitWsCL (slashCommaToSpace line))
  else .ok none

/-- Instrumented second strategy line of `parse_total_cpu_percent`. -/
def totalCpuLine2E (line : List Char) : Except PyErr (Option ℚ) :=
  if containsSub "CPU usage from".toList line && containsSub ['%'] line then
    match filterMapE percentTokenE (splitWsCL line) with
    | .error e => .error e
    | .ok [] => .ok none
    | .ok (n :: ns) => .ok (some ((n :: ns).foldl (· + ·) 0))
  else .ok none

/-- Instrumented `parse_total_cpu_percent`. -/
def parse_total_cpu_percentE (text : String) : Except PyErr (Option ℚ) :=
  match findSomeE totalCpuLine1E (pySplitlines text.toList) with
  | .error e => .error e
  | .ok (some v) => .ok (some v)
  | .ok none => findSomeE totalCpuLine2E (pySplitlines text.toList)

/-- Instrumented `parse_meminfo` line step: `parts[1]` is reached only behind
the short-circuit guard `len(parts) >= 2`, and `int(parts[1])` only behind
`parts[1].isdigit()` — a guard that also lets non-decimal digit characters
through to the unguarded `int()`. -/
def meminfoStepE (st : Option ℤ × Option ℤ) (line : List Char) :
    Except PyErr (Option ℤ × Option ℤ) :=
  if isPrefixOfCL "MemTotal:".toList line then
    if 2 ≤ (splitWsCL line).length then
      match pyListGet (splitWsCL line) 1 with
      | .error e => .error e
      | .ok p1 =>
        if pyIsDigitStr p1 then
          match pyIntExc p1 with
          | .error e => .error e
          | .ok n => .ok (some n, st.2)
        else .ok st
    else .ok st
  else if isPrefixOfCL "MemAvailable:".toList line then
    if 2 ≤ (splitWsCL line).length then
      match pyListGet (splitWsCL line) 1 with
      | .error e => .error e
      | .ok p1 =>
        if pyIsDigitStr p1 then
          match pyIntExc p1 with
          | .error e => .error e
          | .ok n => .ok (st.1, some n)
        else .ok st
    else .ok st
  else .ok st

/-- Instrumented `parse_meminfo`. -/
def parse_meminfoE (text : String) : Except PyErr (Option ℤ × Option ℤ × Option ℚ) :=
  match foldlE meminfoStepE (none, none) (pySplitlines text.toList) with
  | .error e => .error e
  | .ok (mt, ma) =>
    let mup : Option ℚ :=
      match mt, ma with
      | some t, some a =>
        if t ≠ 0 ∧ 0 < t then some ((1 - (a : ℚ) / (t : ℚ)) * 100) else none
      | _, _ => none
    .ok (mt, ma, mup)

/-- Instrumented `parse_battery` line step: `parts[1]` behind
`len(parts) == 2`, the level `int(val)` behind `val.isdigit()` (which lets
non-decimal digit characters through to the unguarded `int()`), and the
temperature `int(raw)` inside `try/except Exception`. -/
def batteryStepE (st : Option ℤ × Option ℚ) (line0 : List Char) :
    Except PyErr (Option ℤ × Option ℚ) :=
  if isPrefixOfCL "level:".toList (lowerCL (stripCL line0)) then
    if (splitColon1 (stripCL line0)).length = 2 then
      match pyListGet (splitColon1 (stripCL line0)) 1 with
      | .error e => .error e
      | .ok v =>
        if pyIsDigitStr (stripCL v) then
          match pyIntExc (stripCL v) with
          | .error e => .error e
          | .ok n => .ok (some n, st.2)
        else .ok st
    else .ok st
  else if isPrefixOfCL "temperature:".toList (lowerCL (stripCL line0)) then
    if (splitColon1 (stripCL line0)).length = 2 then
      match pyListGet (splitColon1 (stripCL line0)) 1 with
      | .error e => .error e
      | .ok v =>
        match pyIntExc (stripCL v) with
        | .ok tenths => .ok (st.1, some ((tenths : ℚ) / 10))
        | .error _ => .ok st
    else .ok st
  else .ok st

/-- Instrumented `parse_battery`. -/
def parse_batteryE (text : String) : Except PyErr (Option ℤ × Option ℚ) :=
  foldlE batteryStepE (none, none) (pySplitlines text.toList)

/-- Instrumented `parse_app_cpu_from_cpuinfo` line: `parts[0]` behind
`len(parts) > 0`, and `float(...)` inside `try/except ValueError`. -/
def appCpuLineE (package : List Char) (line : List Char) : Except PyErr (Option ℚ) :=
  if containsSub package line && containsSub ['%'] line then
    if 0 < (splitWsCL (stripCL line)).length then
      match pyListGet (splitWsCL (stripCL line)) 0 with
      | .error e => .error e
      | .ok p0 =>
        if endsWithCL ['%'] p0 then
          match pyFloatExc p0.dropLast with
          | .ok v => .ok (some v)
          | .error .valueError => .ok none
          | .error e => .error e
        else .ok none
    else .ok none
  else .ok none

/-- Instrumented `parse_app_cpu_from_cpuinfo`. -/
def parse_app_cpu_from_cpuinfoE (text package_name : String) : Except PyErr (Option ℚ) :=
  if package_name = "" then .ok none
  else findSomeE (appCpuLineE package_name.toList) (pySplitlines text.toList)

/-- Instrumented `parse_app_mem_from_meminfo` token: `int(part)` behind
`part.isdigit()` — a guard that also lets non-decimal digit characters
through to the unguarded `int()`. -/
def appMemTokenE (part : List Char) : Except PyErr (Option ℤ) :=
  if pyIsDigitStr part then
    match pyIntExc part with
    | .error e => .error e
    | .ok n => .ok (some n)
  else .ok none

/-- Instrumented `parse_app_mem_from_meminfo` line. -/
def appMemLineE (line : List Char) : Except PyErr (Option ℤ) :=
  if isPrefixOfCL "TOTAL".toList (stripCL line) then
    findSomeE appMemTokenE (splitWsCL line)
  else .ok none

/-- Instrumented `parse_app_mem_from_meminfo`. -/
def parse_app_mem_from_meminfoE (text : String) : Except PyErr (Option ℤ) :=
  findSomeE appMemLineE (pySplitlines text.toList)

/-! ### Baseline store (`scripts/baseline_manager.py`) -/

/-- One row of a session's metrics CSV as the baseline manager reads it:
a parsed timestamp (seconds, as pandas converts to `Timestamp`) and the
optional metric columns (`dropna` skips the absent ones). -/
structure Row where
  timestamp : ℚ
  app_cpu_percent : Option ℚ
  app_mem_kb : Option ℚ
  battery_level : Option ℚ
  battery_temp_c : Option ℚ
deriving DecidableEq

/-- The derived battery metric of `create_baseline`: with at least two
non-absent battery readings and `duration_hours > 0.1` (computed from the
first and last timestamps of the whole frame), record
`(drain_rate_per_hour, mean_level)`; otherwise the `"battery"` entry is not
written. -/
def battery_baseline (rows : List Row) : Option (ℚ × ℚ) :=
  let battery_data := rows.filterMap Row.battery_level
  if 2 ≤ battery_data.length then
    match rows.head?, rows.getLast? with
    | some first, some last =>
      let duration_hours := (last.timestamp - first.timestamp) / 3600
      if 1 / 10 < duration_hours then
        match battery_data.head?, battery_data.getLast? with
        | some start_battery, some end_battery =>
          some ((start_battery - end_battery) / duration_hours,
            battery_data.foldl (· + ·) 0 / battery_data.length)
        | _, _ => none
      else none
    | _, _ => none
  else none

/-- A baseline metrics mapping as `create_baseline` persists it: the four
optional metric-category entries of the `baseline["metrics"]` dict. -/
structure BaselineMetrics where
  cpu : Option (ℚ × ℚ × ℚ × ℚ × ℚ)
  memory : Option (ℚ × ℚ × ℚ × ℚ × ℚ)
  battery : Option (ℚ × ℚ)
  temperature : Option (ℚ × ℚ)
deriving DecidableEq

/-- A persisted baseline record (`<name>.json`). -/
structure BaselineRecord where
  name : String
  description : String
  source_file : String
  data_points : ℕ
  duration_minutes : ℚ
  metrics : BaselineMetrics
deriving DecidableEq

/-- The baseline directory: the `<name>.json` records and the sibling
`<name>_data.csv` series copies, keyed by baseline name. -/
structure BaselineStore where
  json_files : String → Option BaselineRecord
  data_files : String → Option (List Row)

/-- Outcome of a lookup-style command. -/
inductive LookupResult (α : Type) where
  | notFound
  | found (a : α)
deriving DecidableEq

/-- `show_baseline`: reports NotFound when `<name>.json` does not exist, else
reads the record; it writes nothing either way. -/
def show_baseline (st : BaselineStore) (name : String) :
    LookupResult BaselineRecord × BaselineStore :=
  match st.json_files name with
  | none => (.notFound, st)
  | some b => (.found b, st)

/-- `delete_baseline`: reports NotFound when `<name>.json` does not exist and
touches nothing in that case; otherwise unlinks the record and, when present,
the sibling data file. -/
def delete_baseline (st : BaselineStore) (name : String) :
    LookupResult Unit × BaselineStore :=
  match st.json_files name with
  | none => (.notFound, st)
  | some _ =>
    (.found (),
      { json_files := fun n => if n = name then none else st.json_files n
        data_files := fun n => if n = name then none else st.data_files n })

/-! ### Session CSV log (`collector/android_collector.py`) -/

/-- The `fieldnames` list of `ensure_csv_writer`, in source order. -/
def csv_fieldnames : List String :=
  ["timestamp", "total_cpu_percent", "mem_total_kb", "mem_available_kb",
    "mem_used_percent", "battery_level", "battery_temp_c", "app_cpu_percent",
    "app_mem_kb"]

/-- A CSV file modelled as its list of rows (each a list of cells). -/
abbrev CsvFile : Type := List (List String)

/-- `ensure_csv_writer`: the file is opened in append mode — an existing
file keeps its contents untouched — and the header row is written only when
the file did not exist. -/
def ensure_csv_writer (existing : Option CsvFile) : CsvFile :=
  match existing with
  | none => [csv_fieldnames]
  | some rows => rows

/-- Serialization of one optional cell by `csv.DictWriter`: `None` becomes
the empty string, a value its decimal text. -/
def serialize_cell (v : Option ℚ) : String :=
  match v with
  | none => ""
  | some q => toString q

/-- `writer.writerow`: appends one serialized row at the end of the file. -/
def write_row (file : CsvFile) (sample : List (Option ℚ)) : CsvFile :=
  file ++ [sample.map serialize_cell]

/-! ### Frame statistics -/

/-- Modelled from the spec: the aggregate frame-statistics parser is not part
of the sources under verification (the collector logs no frame metrics); per
the spec it reads `"Total frames rendered: N"` and `"Janky frames: N"` and
computes `jank_rate = janky / total * 100` only when `total ≥ 10`. -/
def jank_rate (total janky : ℕ) : Option ℚ :=
  if 10 ≤ total then some ((janky : ℚ) / (total : ℚ) * 100) else none

/-! ### Models of the claimed (spec-side) parser behaviour, for comparison -/

/-- Modelled from the claim: the per-process CPU value is "the first
whitespace-separated token at index > 0 on that line that parses as a number
in [0, 800]", on a line containing the target process identifier. -/
def spec_app_cpu_ranked (text package : String) : Option ℚ :=
  (pySplitlines text.toList).findSome? (fun line =>
    if containsSub package.toList line then
      ((splitWsCL line).drop 1).findSome? (fun tok =>
        match pyFloat? tok with
        | some v => if 0 ≤ v ∧ v ≤ 800 then some v else none
        | none => none)
    else none)

/-- Modelled from the claim: total-CPU strategy (1) matches "a line containing
a TOTAL marker, but not the literal substring TOTAL:", and "yields its
trailing percentage token". -/
def spec_total_cpu_strategy1 (text : String) : Option ℚ :=
  (pySplitlines text.toList).findSome? (fun line =>
    if containsSub "TOTAL".toList line && !containsSub "TOTAL:".toList line then
      ((splitWsCL line).filterMap percent_token).getLast?
    else none)

/-! ## Theorems -/

/-! ### Per-statistic drift classification -/

lemma cd_stable {b c : ℚ} (h : |percent_diff b c| < 5) :
    classify_drift b c = .stable := by
  unfold classify_drift
  rw [if_pos h]

lemma abs_not_lt_of_le_neg {x y : ℚ} (h : x ≤ -y) : ¬ |x| < y := by
  rw [abs_lt]
  push_neg
  intro h2
  linarith

lemma abs_not_lt_of_ge {x y : ℚ} (h : y ≤ x) : ¬ |x| < y := by
  rw [abs_lt]
  push_neg
  intro h2
  linarith

lemma cd_regression {b c : ℚ} (h : 15 < percent_diff b c) :
    classify_drift b c = .regression := by
  unfold classify_drift
  rw [if_neg (abs_not_lt_of_ge (by linarith)), if_pos h]

lemma cd_minor_regression {b c : ℚ} (h5 : 5 < percent_diff b c)
    (h15 : percent_diff b c ≤ 15) : classify_drift b c = .minor_regression := by
  unfold classify_drift
  rw [if_neg (abs_not_lt_of_ge (by linarith)), if_neg (not_lt.mpr h15), if_pos h5]

lemma cd_improvement {b c : ℚ} (h : percent_diff b c < -10) :
    classify_drift b c = .improvement := by
  unfold classify_drift
  rw [if_neg (abs_not_lt_of_le_neg (by linarith)),
    if_neg (by intro h2; linarith), if_neg (by intro h2; linarith), if_pos h]

lemma cd_minor_improvement {b c : ℚ} (ha : -10 ≤ percent_diff b c)
    (hb : percent_diff b c ≤ -5) : classify_drift b c = .minor_improvement := by
  unfold classify_drift
  rw [if_neg (abs_not_lt_of_le_neg (by linarith)),
    if_neg (by intro h2; linarith), if_neg (by intro h2; linarith),
    if_neg (not_lt.mpr ha)]

/-- C1 (amended): for every baseline/current value pair the comparator's
percent difference is `(current − baseline) / baseline × 100`, defined as `0`
when the baseline is `≤ 0`, and the category chain assigns: stable when
`|percent_diff| < 5`, regression when `percent_diff > 15`, minor_regression
when `5 < percent_diff ≤ 15`, improvement when `percent_diff < −10`, and
minor_improvement when `−10 ≤ percent_diff ≤ −5`; baseline mean `20.0` vs
current mean `23.5` (`+17.5%`) is classified regression, and baseline mean
`20.0` vs current mean `19.0` (`−5%`) is classified minor_improvement (not
stable, as the claim's second example said: `|−5| < 5` fails). -/
theorem comparator_classification (b c : ℚ) :
    (b ≤ 0 → percent_diff b c = 0) ∧
    (0 < b → percent_diff b c = (c - b) / b * 100) ∧
    (|percent_diff b c| < 5 → classify_drift b c = .stable) ∧
    (15 < percent_diff b c → classify_drift b c = .regression) ∧
    (5 < percent_diff b c → percent_diff b c ≤ 15 →
      classify_drift b c = .minor_regression) ∧
    (percent_diff b c < -10 → classify_drift b c = .improvement) ∧
    (-10 ≤ percent_diff b c → percent_diff b c ≤ -5 →
      classify_drift b c = .minor_improvement) ∧
    classify_drift 20 (47 / 2) = .regression ∧
    classify_drift 20 19 = .minor_improvement := by
  refine ⟨fun h => ?_, fun h => ?_, cd_stable, cd_regression, cd_minor_regression,
    cd_improvement, cd_minor_improvement, ?_, ?_⟩
  · unfold percent_diff
    rw [if_neg (not_lt.mpr h)]
  · unfold percent_diff
    rw [if_pos h]
  · exact cd_regression (by norm_num [percent_diff])
  · exact cd_minor_improvement (by norm_num [percent_diff]) (by norm_num [percent_diff])

/-- Witness for `comparator_classification`: at baseline 10 and current 13
the percent difference is 30 and the category is regression. -/
theorem comparator_classification_witness :
    classify_drift 10 13 = .regression :=
  (comparator_classification 10 13).2.2.2.1 (by norm_num [percent_diff])

/-- C1 counterexample: the claim's second example says baseline mean `20.0`
vs current mean `19.0` (`percent_diff = −5%`) is classified stable, but the
code's first branch `abs(diff_pct) < 5` fails at `−5`, so the chain falls
through to minor_improvement. -/
theorem comparator_classification_counterexample :
    percent_diff 20 19 = -5 ∧ classify_drift 20 19 ≠ Category.stable := by
  constructor
  · norm_num [percent_diff]
  · rw [cd_minor_improvement (by norm_num [percent_diff]) (by norm_num [percent_diff])]
    decide

/-! ### Session-level summary verdict -/

lemma sv_unfold (bm bp cm cp : ℚ) :
    session_verdict bm bp cm cp =
      if 15 < drift_pct bm cm ∨ 20 < drift_pct bp cp then .regression
      else if drift_pct bm cm < -10 then .improvement
      else .steady := rfl

/-- C2 (amended): with positive baseline statistics (the summary block
divides by them with no guard), the session summary flags regression exactly
when the mean drift exceeds 15% or the p90 drift exceeds 20%, and flags
improvement exactly when the mean drift is below −10% and the metric was not
already flagged as a regression (the source's `elif`): an improvement
additionally requires mean drift ≤ 15% and p90 drift ≤ 20%. -/
theorem session_summary_verdict (bm bp cm cp : ℚ) (_hbm : 0 < bm) (_hbp : 0 < bp) :
    (session_verdict bm bp cm cp = .regression ↔
      15 < drift_pct bm cm ∨ 20 < drift_pct bp cp) ∧
    (session_verdict bm bp cm cp = .improvement ↔
      drift_pct bm cm < -10 ∧ drift_pct bm cm ≤ 15 ∧ drift_pct bp cp ≤ 20) := by
  rw [sv_unfold]
  by_cases h1 : 15 < drift_pct bm cm ∨ 20 < drift_pct bp cp
  · rw [if_pos h1]
    refine ⟨⟨fun _ => h1, fun _ => rfl⟩, ⟨fun h => absurd h (by decide), ?_⟩⟩
    rintro ⟨ha, hb, hc⟩
    rcases h1 with h1 | h1 <;> linarith
  · rw [if_neg h1]
    push_neg at h1
    by_cases h2 : drift_pct bm cm < -10
    · rw [if_pos h2]
      exact ⟨⟨fun h => absurd h (by decide), fun h => absurd h (by rcases h with h | h <;> linarith [h1.1, h1.2])⟩,
        ⟨fun _ => ⟨h2, h1.1, h1.2⟩, fun _ => rfl⟩⟩
    · rw [if_neg h2]
      exact ⟨⟨fun h => absurd h (by decide), fun h => absurd h (by rcases h with h | h <;> linarith [h1.1, h1.2])⟩,
        ⟨fun h => absurd h (by decide), fun h => absurd h.1 h2⟩⟩

/-- Witness for `session_summary_verdict`: baseline mean 100 and p90 100,
current mean 80 and p90 130 — the p90 drift of 30% forces regression. -/
theorem session_summary_verdict_witness :
    session_verdict 100 100 80 130 = Verdict.regression :=
  ((session_summary_verdict 100 100 80 130 (by norm_num) (by norm_num)).1).mpr
    (Or.inr (by norm_num [drift_pct]))

/-- C2 counterexample: with baseline mean 100, baseline p90 100, current
mean 80 and current p90 130, the mean drift is −20% (below −10%) yet the
verdict is regression, not improvement — the improvement branch is an
`elif` behind the regression test, so it is not applied whenever the p90
drift exceeds 20%. -/
theorem session_summary_counterexample :
    drift_pct 100 80 < -10 ∧ session_verdict 100 100 80 130 ≠ Verdict.improvement := by
  constructor
  · norm_num [drift_pct]
  · rw [sv_unfold, if_pos (Or.inr (by norm_num [drift_pct]))]
    decide

/-! ### Exception behaviour of the parsers -/

lemma pyInt?_of_isDigit {l : List Char} (h : isDigitStr l = true) :
    pyInt? l = some (digitsToNat l : ℤ) := by
  cases l with
  | nil => simp [isDigitStr] at h
  | cons c rest =>
    have hall : (c :: rest).all Char.isDigit = true := by
      have := (Bool.and_eq_true _ _).mp h
      exact this.2
    have hc : c.isDigit = true := (List.all_eq_true.mp hall) c (by simp)
    have hm : c ≠ '-' := by
      intro e
      subst e
      exact absurd hc (by decide)
    have hp : c ≠ '+' := by
      intro e
      subst e
      exact absurd hc (by decide)
    rw [pyInt?, if_neg hm, if_neg hp, digitsOptZ, if_pos h]

lemma pyIntExc_of_isDigit {l : List Char} (h : isDigitStr l = true) :
    pyIntExc l = .ok (digitsToNat l : ℤ) := by
  rw [pyIntExc, pyInt?_of_isDigit h]

lemma findSomeE_ok {β : Type} {f : List Char → Except PyErr (Option β)}
    {g : List Char → Option β} (hfg : ∀ a, f a = .ok (g a)) :
    ∀ l, findSomeE f l = .ok (l.findSome? g) := by
  intro l
  induction l with
  | nil => rfl
  | cons a l ih =>
    rw [findSomeE, hfg a]
    cases hg : g a with
    | some b => simp [List.findSome?_cons, hg]
    | none => simp [List.findSome?_cons, hg, ih]

lemma foldlE_ok {σ : Type} {f : σ → List Char → Except PyErr σ}
    {g : σ → List Char → σ} (hfg : ∀ s a, f s a = .ok (g s a)) :
    ∀ (l : List (List Char)) (s : σ), foldlE f s l = .ok (l.foldl g s) := by
  intro l
  induction l with
  | nil => intro s; rfl
  | cons a l ih =>
    intro s
    rw [foldlE, hfg s a]
    exact ih (g s a)

lemma filterMapE_ok {β : Type} {f : List Char → Except PyErr (Option β)}
    {g : List Char → Option β} (hfg : ∀ a, f a = .ok (g a)) :
    ∀ l, filterMapE f l = .ok (l.filterMap g) := by
  intro l
  induction l with
  | nil => rfl
  | cons a l ih =>
    rw [filterMapE, hfg a]
    cases hg : g a with
    | some b => simp [List.filterMap_cons, hg, ih]
    | none => simp [List.filterMap_cons, hg, ih]

lemma percentTokenE_ok (tok : List Char) : percentTokenE tok = .ok (percent_token tok) := by
  unfold percentTokenE percent_token
  split
  · cases h : pyFloat? tok.dropLast <;> simp [pyFloatExc, h]
  · rfl

lemma totalCpuLine1E_ok (line : List Char) :
    totalCpuLine1E line = .ok (totalCpuLine1 line) := by
  unfold totalCpuLine1E totalCpuLine1
  split
  · exact findSomeE_ok percentTokenE_ok _
  · rfl

lemma totalCpuLine2E_ok (line : List Char) :
    totalCpuLine2E line = .ok (totalCpuLine2 line) := by
  unfold totalCpuLine2E totalCpuLine2
  split
  · rw [filterMapE_ok percentTokenE_ok]
    cases hm : (splitWsCL line).filterMap percent_token <;> simp [hm]
  · rfl

lemma appCpuLineE_ok (package line : List Char) :
    appCpuLineE package line = .ok (appCpuLine package line) := by
  unfold appCpuLineE appCpuLine
  split
  · rcases hp : splitWsCL (stripCL line) with _ | ⟨p0, rest⟩
    · simp [hp, pyListGet]
    · simp [hp, pyListGet]
      split
      · cases h : pyFloat? p0.dropLast <;> simp [pyFloatExc, h]
      · rfl
  · rfl

/-- C6: the claim fails on the code.  Python `str.isdigit` also accepts
non-decimal digit characters such as `'²'`, which then reach the unguarded
`int()` calls: under the exception-instrumented semantics `parse_meminfo`,
`parse_battery` (level branch) and `parse_app_mem_from_meminfo` raise
`ValueError` on such input instead of returning absence.  The two CPU
parsers, whose only conversions sit inside `try/except`, are total: they
return `.ok` of the plain value on every input. -/
theorem parser_exception_on_nondecimal_digit :
    (∀ text package_name : String,
      parse_total_cpu_percentE text = .ok (parse_total_cpu_percent text) ∧
      parse_app_cpu_from_cpuinfoE text package_name =
        .ok (parse_app_cpu_from_cpuinfo text package_name)) ∧
    pyDigitChar '²' = true ∧ pyInt? ['²'] = none ∧
    parse_meminfoE "MemTotal: ²" = .error .valueError ∧
    parse_batteryE "level: ²" = .error .valueError ∧
    parse_app_mem_from_meminfoE "TOTAL ²" = .error .valueError := by
  refine ⟨?_, rfl, rfl, rfl, rfl, rfl⟩
  intro text package_name
  constructor
  · unfold parse_total_cpu_percentE parse_total_cpu_percent
    rw [findSomeE_ok totalCpuLine1E_ok]
    cases h : (pySplitlines text.toList).findSome? totalCpuLine1 <;>
      simp [h, findSomeE_ok totalCpuLine2E_ok]
  · unfold parse_app_cpu_from_cpuinfoE parse_app_cpu_from_cpuinfo
    split
    · rfl
    · exact findSomeE_ok (appCpuLineE_ok _) _

/-! ### Per-process CPU parsing -/

/-- C3 (amended): the per-process CPU parser scans lines containing both the
package name and a `'%'`, and returns the value of the *first* token on the
line (the token at index 0) when that token ends with `'%'` and parses as a
number — with no `[0, 800]` range restriction and no exclusion of the PID
column, which in this dialect comes *after* the percentage.  It returns
absent for an empty package name and for any text none of whose lines
contain the package name. -/
theorem app_cpu_parse_rules :
    (∀ text package : String,
      (∀ line ∈ pySplitlines text.toList, containsSub package.toList line = false) →
      parse_app_cpu_from_cpuinfo text package = none) ∧
    (∀ text : String, parse_app_cpu_from_cpuinfo text "" = none) ∧
    parse_app_cpu_from_cpuinfo "  16% 23856/com.app: run" "com.app" = some 16 ∧
    parse_app_cpu_from_cpuinfo "900% 1/com.app: x" "com.app" = some 900 ∧
    parse_app_cpu_from_cpuinfo "com.app 42 99%" "com.app" = none := by
  refine ⟨?_, ?_, ?_, ?_, rfl⟩
  · intro text package h
    unfold parse_app_cpu_from_cpuinfo
    split
    · rfl
    · rw [List.findSome?_eq_none_iff]
      intro line hm
      unfold appCpuLine
      rw [h line hm]
      rfl
  · intro text
    unfold parse_app_cpu_from_cpuinfo
    rw [if_pos rfl]
  · have h : parse_app_cpu_from_cpuinfo "  16% 23856/com.app: run" "com.app" =
        some ((digitsToNat ['1', '6'] : ℕ) : ℚ) := rfl
    rw [h]
    norm_cast
  · have h : parse_app_cpu_from_cpuinfo "900% 1/com.app: x" "com.app" =
        some ((digitsToNat ['9', '0', '0'] : ℕ) : ℚ) := rfl
    rw [h]
    norm_cast

/-- Witness for `app_cpu_parse_rules`: a text with no line mentioning the
package parses to absent. -/
theorem app_cpu_parse_rules_witness :
    parse_app_cpu_from_cpuinfo "load: 1.0\nother text" "com.app" = none :=
  app_cpu_parse_rules.1 "load: 1.0\nother text" "com.app" (by decide)

/-- C3 counterexample: on the line `"com.app 42 99%"` the claimed selection
rule (first token at index > 0 parsing as a number in `[0, 800]`) yields 42,
but the code inspects only the token at index 0, which does not end in `'%'`,
so it returns absent. -/
theorem app_cpu_counterexample :
    spec_app_cpu_ranked "com.app 42 99%" "com.app" = some 42 ∧
    parse_app_cpu_from_cpuinfo "com.app 42 99%" "com.app" = none := by
  constructor
  · have h : spec_app_cpu_ranked "com.app 42 99%" "com.app" =
        some ((digitsToNat ['4', '2'] : ℕ) : ℚ) := rfl
    rw [h]
    norm_cast
  · rfl

/-! ### Total CPU parsing -/

/-- C4 (amended): the total-CPU parser tries two strategies in order —
(1) any line containing `"TOTAL"` (the literal substring `"TOTAL:"` included)
or whose stripped form starts with `"Total"` yields its *first* percentage
token (not the trailing one); (2) a line containing `"CPU usage from"` and a
`'%'` yields the sum of its percentage-suffixed numeric tokens.  The first
strategy that yields a value anywhere in the text wins, and `collect_once`
re-runs the whole parser on the secondary `top` text exactly when the primary
text yields absent. -/
theorem total_cpu_parse_rules :
    (∀ (text : String) (v : ℚ),
      (pySplitlines text.toList).findSome? totalCpuLine1 = some v →
      parse_total_cpu_percent text = some v) ∧
    (∀ text : String,
      (pySplitlines text.toList).findSome? totalCpuLine1 = none →
      parse_total_cpu_percent text = (pySplitlines text.toList).findSome? totalCpuLine2) ∧
    (∀ t1 t2 : String, parse_total_cpu_percent t1 = none →
      collect_total_cpu t1 t2 = parse_total_cpu_percent t2) ∧
    (∀ (t1 t2 : String) (v : ℚ), parse_total_cpu_percent t1 = some v →
      collect_total_cpu t1 t2 = some v) ∧
    parse_total_cpu_percent "TOTAL: 50% x" = some 50 ∧
    parse_total_cpu_percent "TOTAL 10% 20%" = some 10 ∧
    parse_total_cpu_percent " Total 7.5%" = some (15 / 2) ∧
    parse_total_cpu_percent "CPU usage from 1s: 3% user + 2% kernel" = some 5 := by
  refine ⟨?_, ?_, ?_, ?_, ?_, ?_, ?_, ?_⟩
  · intro text v h
    unfold parse_total_cpu_percent
    rw [h]
  · intro text h
    unfold parse_total_cpu_percent
    rw [h]
  · intro t1 t2 h
    unfold collect_total_cpu
    rw [h]
  · intro t1 t2 v h
    unfold collect_total_cpu
    rw [h]
  · have h : parse_total_cpu_percent "TOTAL: 50% x" =
        some ((digitsToNat ['5', '0'] : ℕ) : ℚ) := rfl
    rw [h]
    norm_cast
  · have h : parse_total_cpu_percent "TOTAL 10% 20%" =
        some ((digitsToNat ['1', '0'] : ℕ) : ℚ) := rfl
    rw [h]
    norm_cast
  · have h : parse_total_cpu_percent " Total 7.5%" =
        some ((digitsToNat ['7'] : ℚ) + (digitsToNat ['5'] : ℚ) / (10 ^ (1 : ℕ) : ℚ)) := rfl
    rw [h]
    norm_num [show digitsToNat ['7'] = 7 from rfl, show digitsToNat ['5'] = 5 from rfl]
  · have h : parse_total_cpu_percent "CPU usage from 1s: 3% user + 2% kernel" =
        some (0 + (digitsToNat ['3'] : ℚ) + (digitsToNat ['2'] : ℚ)) := rfl
    rw [h]
    norm_num [show digitsToNat ['3'] = 3 from rfl, show digitsToNat ['2'] = 2 from rfl]

/-- Witness for `total_cpu_parse_rules`: the fallback is not consulted when
the primary text parses. -/
theorem total_cpu_parse_rules_witness :
    collect_total_cpu "TOTAL 10% 20%" "" = some 10 := by
  have h : parse_total_cpu_percent "TOTAL 10% 20%" =
      some ((digitsToNat ['1', '0'] : ℕ) : ℚ) := rfl
  have h2 := total_cpu_parse_rules.2.2.2.1 "TOTAL 10% 20%" "" _ h
  rw [h2]
  norm_cast

/-- C4 counterexample: the claimed strategy (1) excludes lines containing the
literal substring `"TOTAL:"` and yields the trailing percentage token; the
code has no such exclusion and yields the first percentage token: on
`"TOTAL 10% 20%"` the claim selects 20 where the code returns 10, and on
`"TOTAL: 50% x"` the claim's first strategy yields nothing where the code
returns 50. -/
theorem total_cpu_counterexample :
    spec_total_cpu_strategy1 "TOTAL 10% 20%" = some 20 ∧
    parse_total_cpu_percent "TOTAL 10% 20%" = some 10 ∧
    spec_total_cpu_strategy1 "TOTAL: 50% x" = none ∧
    parse_total_cpu_percent "TOTAL: 50% x" = some 50 := by
  refine ⟨?_, ?_, rfl, ?_⟩
  · have h : spec_total_cpu_strategy1 "TOTAL 10% 20%" =
        some ((digitsToNat ['2', '0'] : ℕ) : ℚ) := rfl
    rw [h]
    norm_cast
  · have h : parse_total_cpu_percent "TOTAL 10% 20%" =
        some ((digitsToNat ['1', '0'] : ℕ) : ℚ) := rfl
    rw [h]
    norm_cast
  · have h : parse_total_cpu_percent "TOTAL: 50% x" =
        some ((digitsToNat ['5', '0'] : ℕ) : ℚ) := rfl
    rw [h]
    norm_cast

/-! ### Frame statistics -/

/-- C7: the aggregate frame-statistics jank rate is absent whenever
`total_frames < 10` and equals `janky / total × 100` otherwise, for all
`total ≥ 10` and `0 ≤ janky ≤ total` (over the spec-modelled parser — the
frame parser is not among the collector sources). -/
theorem jank_rate_rule (total janky : ℕ) :
    (total < 10 → jank_rate total janky = none) ∧
    (10 ≤ total → janky ≤ total →
      jank_rate total janky = some ((janky : ℚ) / (total : ℚ) * 100)) := by
  constructor
  · intro h
    unfold jank_rate
    rw [if_neg (by omega)]
  · intro h _
    unfold jank_rate
    rw [if_pos h]

/-- Witness for `jank_rate_rule`: 5 janky frames out of 20 give a 25% jank
rate, and 5 out of 9 give no rate at all. -/
theorem jank_rate_rule_witness :
    jank_rate 20 5 = some 25 ∧ jank_rate 9 5 = none := by
  constructor
  · rw [(jank_rate_rule 20 5).2 (by norm_num) (by norm_num)]
    norm_num
  · exact (jank_rate_rule 9 5).1 (by norm_num)

/-! ### Session CSV log -/

/-- C8 counterexample: the header row created for a new session file names
only the nine collected fields; the frame-statistics fields the claim lists
(`fps`, `total_frames`, `janky_frames`, `jank_rate_percent`) are not in it. -/
theorem csv_header_counterexample :
    ensure_csv_writer none = [csv_fieldnames] ∧
    "fps" ∉ csv_fieldnames ∧ "total_frames" ∉ csv_fieldnames ∧
    "janky_frames" ∉ csv_fieldnames ∧ "jank_rate_percent" ∉ csv_fieldnames := by
  refine ⟨rfl, ?_, ?_, ?_, ?_⟩ <;> decide

/-- C8 (amended): the durable log is one file per session whose header row
names the nine Sample fields the collector records — timestamp,
total_cpu_percent, mem_total_kb, mem_available_kb, mem_used_percent,
battery_level, battery_temp_c, app_cpu_percent, app_mem_kb — with absent
fields serialized as empty; the header is written only when the file is
newly created, and the file is opened in append mode and never truncated. -/
theorem csv_log_rules :
    ensure_csv_writer none = [["timestamp", "total_cpu_percent", "mem_total_kb",
      "mem_available_kb", "mem_used_percent", "battery_level", "battery_temp_c",
      "app_cpu_percent", "app_mem_kb"]] ∧
    (∀ rows : CsvFile, ensure_csv_writer (some rows) = rows) ∧
    (∀ (file : CsvFile) (sample : List (Option ℚ)),
      (write_row file sample).take file.length = file) ∧
    serialize_cell none = "" := by
  refine ⟨rfl, fun rows => rfl, fun file sample => ?_, rfl⟩
  unfold write_row
  exact List.take_left file _

/-! ### Baseline store lookups -/

/-- C9: for every name with no persisted baseline record, `show_baseline`
and `delete_baseline` report NotFound and leave the store — baseline records
and sibling data files alike — unchanged. -/
theorem baseline_notfound_no_side_effects (st : BaselineStore) (name : String)
    (h : st.json_files name = none) :
    show_baseline st name = (.notFound, st) ∧
    delete_baseline st name = (.notFound, st) := by
  constructor
  · unfold show_baseline
    rw [h]
  · unfold delete_baseline
    rw [h]

/-- A store with no baseline records but an orphan sibling data file. -/
def orphan_store : BaselineStore :=
  { json_files := fun _ => none
    data_files := fun n => if n = "v1" then some [] else none }

/-- Witness for `baseline_notfound_no_side_effects`: deleting the missing
baseline `"v1"` reports NotFound and leaves even the orphan `"v1"` data file
in place. -/
theorem baseline_notfound_witness :
    delete_baseline orphan_store "v1" = (.notFound, orphan_store) ∧
    (delete_baseline orphan_store "v1").2.data_files "v1" = some [] := by
  have h := (baseline_notfound_no_side_effects orphan_store "v1" rfl).2
  exact ⟨h, by rw [h]; rfl⟩

/-! ### Battery parser sign behaviour -/

lemma battery_level_nonneg_step (st : Option ℤ × Option ℚ) (line : List Char)
    (h : ∀ n, st.1 = some n → 0 ≤ n) :
    ∀ n, (batteryStep st line).1 = some n → 0 ≤ n := by
  intro n hn
  unfold batteryStep at hn
  split at hn
  · split at hn
    · split at hn
      · simp at hn
        rw [← hn]
        exact Int.natCast_nonneg _
      · exact h n hn
    · exact h n hn
  · split at hn
    · split at hn
      · split at hn
        · simp at hn
          exact h n (by rw [hn])
        · exact h n hn
      · exact h n hn
    · exact h n hn

lemma battery_level_nonneg_fold :
    ∀ (lines : List (List Char)) (st : Option ℤ × Option ℚ),
      (∀ n, st.1 = some n → 0 ≤ n) →
      ∀ n, (lines.foldl batteryStep st).1 = some n → 0 ≤ n := by
  intro lines
  induction lines with
  | nil => intro st h; exact h
  | cons a l ih =>
    intro st h
    exact ih (batteryStep st a) (battery_level_nonneg_step st a h)

/-- C10: the battery parser accepts a level only when the text after the
`level:` label is a digit string, so every returned battery level is a
non-negative integer — a negative or fractional encoding leaves it absent —
while the temperature is converted with signed integer parsing and can be
negative. -/
theorem battery_sign_rules :
    (∀ (text : String) (n : ℤ), (parse_battery text).1 = some n → 0 ≤ n) ∧
    parse_battery "level: -5\ntemperature: -123" = (none, some (-(123 / 10) : ℚ)) ∧
    (parse_battery "level: 5.5\ntemperature: 250").1 = none := by
  refine ⟨?_, ?_, rfl⟩
  · intro text n hn
    exact battery_level_nonneg_fold (pySplitlines text.toList) (none, none)
      (fun n h => by cases h) n hn
  · have h : parse_battery "level: -5\ntemperature: -123" =
        (none, some (((-(digitsToNat ['1', '2', '3'] : ℤ)) : ℚ) / 10)) := rfl
    rw [h]
    norm_num [show digitsToNat ['1', '2', '3'] = 123 from rfl]

/-- Witness for `battery_sign_rules`: a parsed level of 7 is non-negative. -/
theorem battery_sign_rules_witness :
    (parse_battery "level: 7").1 = some 7 ∧ (0 : ℤ) ≤ 7 := by
  have h : (parse_battery "level: 7").1 = some ((digitsToNat ['7'] : ℕ) : ℤ) := rfl
  constructor
  · rw [h]
    norm_cast
  · exact battery_sign_rules.1 "level: 7" 7 (by rw [h]; norm_cast)

/-! ### Derived battery drain metric -/

lemma head?_getLast?_of_two_le {l : List ℚ} (h : 2 ≤ l.length) :
    ∃ b0 bl, l.head? = some b0 ∧ l.getLast? = some bl := by
  cases l with
  | nil => simp at h
  | cons x xs =>
    refine ⟨x, (x :: xs).getLast (by simp), rfl, ?_⟩
    rw [List.getLast?_eq_getLast]

/-- C5 (amended): baseline creation includes the derived battery metric
exactly when the source series has at least 2 present battery readings and
an elapsed span of *strictly more than* 0.1 hour (the code tests
`duration_hours > 0.1`, so a span of exactly 0.1 hour is excluded), with
`drain_rate = (first_level − last_level) / hours`; when the data is
insufficient the battery entry is simply omitted, without any error. -/
theorem battery_baseline_rule (rows : List Row) (first last : Row)
    (hf : rows.head? = some first) (hl : rows.getLast? = some last) :
    (battery_baseline rows = none ↔
      ¬(2 ≤ (rows.filterMap Row.battery_level).length ∧
        1 / 10 < (last.timestamp - first.timestamp) / 3600)) ∧
    (∀ b0 bl, (rows.filterMap Row.battery_level).head? = some b0 →
      (rows.filterMap Row.battery_level).getLast? = some bl →
      2 ≤ (rows.filterMap Row.battery_level).length →
      1 / 10 < (last.timestamp - first.timestamp) / 3600 →
      battery_baseline rows =
        some ((b0 - bl) / ((last.timestamp - first.timestamp) / 3600),
          (rows.filterMap Row.battery_level).foldl (· + ·) 0 /
            ((rows.filterMap Row.battery_level).length : ℚ))) := by
  constructor
  · unfold battery_baseline
    rw [hf, hl]
    by_cases h2 : 2 ≤ (rows.filterMap Row.battery_level).length
    · by_cases h3 : (1 : ℚ) / 10 < (last.timestamp - first.timestamp) / 3600
      · obtain ⟨b0, bl, hb0, hbl⟩ := head?_getLast?_of_two_le h2
        simp only [if_pos h2, if_pos h3, hb0, hbl]
        exact iff_of_false (by simp) (not_not_intro ⟨h2, h3⟩)
      · simp only [if_pos h2, if_neg h3]
        exact iff_of_true (by simp) (fun hc => h3 hc.2)
    · simp only [if_neg h2]
      exact iff_of_true (by simp) (fun hc => h2 hc.1)
  · intro b0 bl hb0 hbl h2 h3
    unfold battery_baseline
    rw [hf, hl]
    simp only [if_pos h2, if_pos h3, hb0, hbl]

/-- Rows used for the concrete battery-baseline scenarios: a session start at
time 0 with battery 100, one ending at 360 s (exactly 0.1 h) with battery 90,
and one ending at 7200 s (2 h) with battery 80. -/
def c5_row1 : Row := ⟨0, none, none, some 100, none⟩

def c5_row2 : Row := ⟨360, none, none, some 90, none⟩

def c5_row3 : Row := ⟨7200, none, none, some 80, none⟩

/-- Witness for `battery_baseline_rule`: a 2-hour session dropping from
battery 100 to 80 gets a drain rate of 10 per hour and mean level 90. -/
theorem battery_baseline_rule_witness :
    battery_baseline [c5_row1, c5_row3] = some (10, 90) := by
  have h := (battery_baseline_rule [c5_row1, c5_row3] c5_row1 c5_row3 rfl rfl).2
    100 80 rfl rfl (by decide) (by norm_num [c5_row1, c5_row3])
  rw [h]
  have hfm : List.filterMap Row.battery_level [c5_row1, c5_row3] = [100, 80] := rfl
  have hts : c5_row3.timestamp = 7200 := rfl
  have hts1 : c5_row1.timestamp = 0 := rfl
  rw [hfm, hts, hts1]
  norm_num [List.foldl_cons, List.foldl_nil]

/-- C5 counterexample: a series with two battery readings spanning *exactly*
0.1 hour (360 seconds): the claim ("an elapsed span of at least 0.1 hour")
would include the battery metric, but the code's strict
`duration_hours > 0.1` test fails and the metric is omitted. -/
theorem battery_baseline_counterexample :
    2 ≤ (List.filterMap Row.battery_level [c5_row1, c5_row2]).length ∧
    (c5_row2.timestamp - c5_row1.timestamp) / 3600 = 1 / 10 ∧
    battery_baseline [c5_row1, c5_row2] = none := by
  refine ⟨by decide, ?_, ?_⟩
  · have hts : c5_row2.timestamp = 360 := rfl
    have hts1 : c5_row1.timestamp = 0 := rfl
    rw [hts, hts1]
    norm_num
  · unfold battery_baseline
    have hfm : List.filterMap Row.battery_level [c5_row1, c5_row2] = [100, 90] := rfl
    have hh : List.head? [c5_row1, c5_row2] = some c5_row1 := rfl
    have hg : List.getLast? [c5_row1, c5_row2] = some c5_row2 := rfl
    rw [hfm, hh, hg]
    norm_num [c5_row1, c5_row2]

end PerfMon
